import Mathlib

/-!
Verification development for the seal ("precinto") inventory and
chain-of-custody tracker.  The definitions below are a shallow embedding of
the TypeScript source: the seal data model (src/types.ts), the transition
policy table `ALLOWED_TRANSITIONS` (src/unnamed/part_000:10-18,
src/unnamed/part_001:10-18), and the movement / registration handlers of the
application variants (src/App.tsx, src/unnamed/part_000, src/unnamed/part_001,
src/unnamed/part_002).  JavaScript strings are modelled by `String`;
`undefined`-able object keys are modelled by `Option`; the handful of
JS string operations used by the handlers (`toUpperCase`, `toLowerCase`,
`trim`, `split(',')`, `includes`) are given explicit executable definitions.
-/

/-- The seven seal statuses of `SealStatus` in src/types.ts:24-32.
Constructor names are lower-camel-cased; `entrada` stands for the source's
ENTRADA_INVENTARIO, `salidaFabrica` for SALIDA_FABRICA, `noInstalado` for
NO_INSTALADO. -/
inductive SealStatus
  | entrada
  | asignado
  | entregado
  | instalado
  | salidaFabrica
  | noInstalado
  | destruido
deriving DecidableEq, Repr, Fintype

/-- The string value of each enum member, exactly as in src/types.ts. -/
def statusStr : SealStatus → String
  | .entrada => "ENTRADA_INVENTARIO"
  | .asignado => "ASIGNADO"
  | .entregado => "ENTREGADO"
  | .instalado => "INSTALADO"
  | .salidaFabrica => "SALIDA_FABRICA"
  | .noInstalado => "NO_INSTALADO"
  | .destruido => "DESTRUIDO"

/-- The enum value with the underscore replaced by a space, as produced by
the source's `status.replace('_', ' ')`. -/
def statusSpace : SealStatus → String
  | .entrada => "ENTRADA INVENTARIO"
  | .asignado => "ASIGNADO"
  | .entregado => "ENTREGADO"
  | .instalado => "INSTALADO"
  | .salidaFabrica => "SALIDA FABRICA"
  | .noInstalado => "NO INSTALADO"
  | .destruido => "DESTRUIDO"

/-- JS `s.toUpperCase()` restricted to the ASCII letters actually used by
the app's ids and cities. -/
def upStr (s : String) : String := String.mk (s.data.map Char.toUpper)

/-- JS `s.toLowerCase()`. -/
def lowStr (s : String) : String := String.mk (s.data.map Char.toLower)

/-- Whitespace test backing `trimStr`. -/
def isWsChar (c : Char) : Bool := c == ' ' || c == '\t' || c == '\n' || c == '\r'

/-- JS `s.trim()`. -/
def trimStr (s : String) : String :=
  String.mk (((s.data.dropWhile isWsChar).reverse.dropWhile isWsChar).reverse)

/-- Character-list worker for `splitComma`. -/
def splitCommaChars : List Char → List (List Char)
  | [] => [[]]
  | c :: rest =>
    let r := splitCommaChars rest
    if c == ',' then [] :: r
    else
      match r with
      | [] => [[c]]
      | h :: t => (c :: h) :: t

/-- JS `s.split(',')`. -/
def splitComma (s : String) : List String := (splitCommaChars s.data).map String.mk

/-- JS `hay.includes(needle)`: substring containment. -/
def strContainsB (hay needle : String) : Bool := decide (List.IsInfix needle.data hay.data)

/-- The move-form object of part_000/part_001 (`moveForm` component state,
src/unnamed/part_001:168-178).  Each field is `none` when the key is absent
from the JS object and `some v` when the key is present with string value `v`
(possibly the empty string); `status` is `none` when the key is absent or
`undefined`. -/
structure MoveForm where
  status : Option SealStatus
  observations : Option String
  assignedTo : Option String
  deliveredTo : Option String
  vehiclePlate : Option String
  containerId : Option String
  driverName : Option String
  destination : Option String
  orderNumber : Option String
deriving DecidableEq, Repr

/-- One audit record, `MovementHistory` in src/types.ts:34-41.  `fields` is
the optional raw snapshot of the move form stored by part_000/part_001's
`handleConfirmMove`. -/
structure MovementHistory where
  date : String
  fromStatus : Option SealStatus
  toStatus : SealStatus
  user : String
  details : String
  fields : Option MoveForm
deriving DecidableEq, Repr

/-- The seal record, `Seal` in src/types.ts:43-62.  The eight cumulative
operational fields are optional. -/
structure Seal where
  id : String
  type : String
  status : SealStatus
  creationDate : String
  lastMovement : String
  entryUser : String
  city : String
  history : List MovementHistory
  orderNumber : Option String
  containerId : Option String
  vehiclePlate : Option String
  assignedTo : Option String
  deliveredTo : Option String
  driverName : Option String
  destination : Option String
  observations : Option String
deriving DecidableEq, Repr

/-- The static transition table, `ALLOWED_TRANSITIONS` in
src/unnamed/part_000:10-18 and src/unnamed/part_001:10-18 (entry order kept). -/
def ALLOWED_TRANSITIONS : SealStatus → List SealStatus
  | .entrada => [.asignado, .destruido]
  | .asignado => [.entregado, .entrada, .destruido]
  | .entregado => [.instalado, .noInstalado, .destruido]
  | .instalado => [.salidaFabrica, .destruido]
  | .salidaFabrica => []
  | .noInstalado => [.destruido, .entrada]
  | .destruido => []

/-- The spec's transition-policy operation `isTransitionAllowed(from, to)`
(spec section 4.1), realised as a lookup in `ALLOWED_TRANSITIONS`. -/
def isTransitionAllowed (f t : SealStatus) : Bool := (ALLOWED_TRANSITIONS f).contains t

/-- Batch offer step, `getCommonNextStatuses` in src/unnamed/part_000:242-248
and src/unnamed/part_001:348-354: empty selection or mixed statuses offer
nothing; a uniform selection offers the table row of the common status. -/
def getCommonNextStatuses (selectedSeals : List Seal) : List SealStatus :=
  match selectedSeals with
  | [] => []
  | s0 :: rest =>
    if (s0 :: rest).all (fun s => s.status == s0.status) then
      ALLOWED_TRANSITIONS s0.status
    else []

/-- Result of part_002's `commonStatus` memo (src/unnamed/part_002:550):
`empty` models the JS `null` for an empty batch, `mixed` the string
`'MIXED'`, and `common s` the shared status. -/
inductive CommonStatus
  | empty
  | mixed
  | common (s : SealStatus)
deriving DecidableEq, Repr

/-- part_002's `commonStatus` (src/unnamed/part_002:550). -/
def commonStatus (foundSeals : List Seal) : CommonStatus :=
  match foundSeals with
  | [] => .empty
  | s0 :: rest =>
    if (s0 :: rest).all (fun s => s.status == s0.status) then .common s0.status
    else .mixed

/-- JS object-spread semantics for one optional field: a key present in the
move form (even with the empty-string value) overwrites the seal's stored
value, an absent key leaves it untouched. -/
def mergeField (old new : Option String) : Option String :=
  match new with
  | none => old
  | some v => some v

/-- One `[k, v]` pair of `Object.entries(moveForm)` that survives the
truthiness filter `([k, v]) => v && ...` of `handleConfirmMove`
(src/unnamed/part_001:281). -/
def optEntry (k : String) (v : Option String) : List (String × String) :=
  match v with
  | none => []
  | some s => if s == "" then [] else [(k, s)]

/-- The surviving `fieldEntries` of `handleConfirmMove`, in the key order of
the `moveForm` literal of src/unnamed/part_001:168-178 with `status`
filtered out. -/
def fieldEntriesOf (f : MoveForm) : List (String × String) :=
  optEntry "observations" f.observations ++
  optEntry "assignedTo" f.assignedTo ++
  optEntry "deliveredTo" f.deliveredTo ++
  optEntry "vehiclePlate" f.vehiclePlate ++
  optEntry "containerId" f.containerId ++
  optEntry "driverName" f.driverName ++
  optEntry "destination" f.destination ++
  optEntry "orderNumber" f.orderNumber

/-- The `details` string built by `handleConfirmMove`
(src/unnamed/part_001:282). -/
def moveDetails (f : MoveForm) (st : SealStatus) : String :=
  "Movimiento a " ++ statusStr st ++ ". " ++
    String.intercalate ", " ((fieldEntriesOf f).map (fun kv => kv.1 ++ ": " ++ kv.2))

/-- The per-seal update performed inside `handleConfirmMove`'s loop
(src/unnamed/part_000:178-192, src/unnamed/part_001:284-298): JS
`{ ...s, ...moveForm, status, lastMovement: now, history: [entry, ...] }`.
Note that `entryUser` is not touched. -/
def applyMoveToSeal (f : MoveForm) (st : SealStatus) (actor now det : String) (s : Seal) : Seal :=
  { s with
    status := st
    lastMovement := now
    observations := mergeField s.observations f.observations
    assignedTo := mergeField s.assignedTo f.assignedTo
    deliveredTo := mergeField s.deliveredTo f.deliveredTo
    vehiclePlate := mergeField s.vehiclePlate f.vehiclePlate
    containerId := mergeField s.containerId f.containerId
    driverName := mergeField s.driverName f.driverName
    destination := mergeField s.destination f.destination
    orderNumber := mergeField s.orderNumber f.orderNumber
    history := { date := now, fromStatus := some s.status, toStatus := st,
                 user := actor, details := det, fields := some f } :: s.history }

/-- `handleConfirmMove` of part_000:171-202 / part_001:277-308: aborts (no
update at all) when no target status is selected, otherwise updates every
selected seal.  The returned list models the batch of seals passed to
`SealService.updateSeal`. -/
def handleConfirmMove (f : MoveForm) (actor now : String) (selectedSeals : List Seal) :
    Option (List Seal) :=
  match f.status with
  | none => none
  | some st => some (selectedSeals.map (applyMoveToSeal f st actor now (moveDetails f st)))

/-- The `moveData` object of part_002 and App.tsx (src/unnamed/part_002:608,
src/App.tsx:368): always-present string fields, empty string by default. -/
structure MoveData where
  requester : String
  observations : String
  vehiclePlate : String
  trailerContainer : String
  deliveredSub : String
deriving DecidableEq, Repr

/-- JS `moveData.observations || 'Sin observaciones'` used in part_002's
details strings. -/
def obsOr (d : MoveData) : String :=
  if d.observations == "" then "Sin observaciones" else d.observations

/-- The per-target validation and details construction at the head of
part_002's `handleConfirmMovement` (src/unnamed/part_002:656): an `alert`
message on a missing required field, else the details string. -/
def validate002 (ts : SealStatus) (d : MoveData) : Except String String :=
  if ts == .asignado || ts == .entregado then
    if d.requester == "" then .error "El Usuario Receptor es obligatorio."
    else .ok ("USUARIO RECEPTOR: " ++ d.requester ++ " | OBSERVACIONES: " ++ obsOr d)
  else if ts == .instalado then
    if d.vehiclePlate == "" || d.trailerContainer == "" then
      .error "Placa y Contenedor obligatorios."
    else .ok ("PLACA VEHÍCULO: " ++ d.vehiclePlate ++ " | TRAILER/CONTENEDOR: " ++
              d.trailerContainer ++ " | OBSERVACIONES: " ++ obsOr d)
  else if ts == .noInstalado then
    if d.deliveredSub == "" then .error "El campo Entregado sub es obligatorio."
    else .ok ("ENTREGADO SUB: " ++ d.deliveredSub ++ " | OBSERVACIONES: " ++ obsOr d)
  else if ts == .destruido then
    if d.observations == "" then .error "El Motivo es obligatorio."
    else .ok ("MOTIVO DESTRUCCIÓN: " ++ d.observations)
  else
    .ok (if d.observations == "" then "Cambio de estado a " ++ statusSpace ts
         else d.observations)

/-- Outcome of part_002's `handleConfirmMovement`: `noop` models the early
`return` (no selection or no target), `fieldError` the `alert` early return
before any mutation, `ok` the updated whole collection handed to
`setSeals`. -/
inductive MoveResult
  | noop
  | fieldError (msg : String)
  | ok (seals : List Seal)
deriving DecidableEq, Repr

/-- Boolean success test on a `MoveResult`. -/
def MoveResult.isOk : MoveResult → Bool
  | .ok _ => true
  | _ => false

/-- part_002's `handleConfirmMovement` (src/unnamed/part_002:656): validates
the required fields of the target status, then maps over the whole seal
collection updating the selected ids (`status`, `lastMovement`, `entryUser`,
prepended history entry whose details get the `[MASIVO]` marker when the
batch has more than one seal).  No transition-legality check is made. -/
def handleConfirmMovement002 (seals selectedSeals : List Seal)
    (targetStatus : Option SealStatus) (d : MoveData) (actor now : String) : MoveResult :=
  match targetStatus with
  | none => .noop
  | some ts =>
    if selectedSeals.isEmpty then .noop
    else
      match validate002 ts d with
      | .error m => .fieldError m
      | .ok det =>
        let det := if selectedSeals.length > 1 then "[MASIVO] " ++ det else det
        let selectedIds := selectedSeals.map (fun s => s.id)
        .ok (seals.map (fun s =>
          if selectedIds.contains s.id then
            { s with
              status := ts
              lastMovement := now
              entryUser := actor
              history := { date := now, fromStatus := some s.status, toStatus := ts,
                           user := actor, details := det, fields := none } :: s.history }
          else s))

/-- App.tsx's `handleConfirmMovement` (src/App.tsx:405-419): applies the
requested target to every selected id with no validation of any kind;
`details` is `moveData.observations || 'Movimiento'`; `entryUser` is not
touched. -/
def handleConfirmMovementApp (seals selectedSeals : List Seal)
    (targetStatus : Option SealStatus) (d : MoveData) (actor now : String) : List Seal :=
  match targetStatus with
  | none => seals
  | some ts =>
    let selectedIds := selectedSeals.map (fun s => s.id)
    seals.map (fun s =>
      if selectedIds.contains s.id then
        { s with
          status := ts
          lastMovement := now
          history := { date := now, fromStatus := some s.status, toStatus := ts,
                       user := actor,
                       details := if d.observations == "" then "Movimiento" else d.observations,
                       fields := none } :: s.history }
      else s)

/-- The new seal literal saved by the registration buttons of part_000:610-613
and part_001:746: status ENTRADA_INVENTARIO, one initial history entry with
`fromStatus: null`. -/
def mkNewSeal (id ty actor city now : String) : Seal :=
  { id := id, type := ty, status := .entrada, creationDate := now, lastMovement := now,
    entryUser := actor, city := city,
    history := [{ date := now, fromStatus := none, toStatus := .entrada,
                  user := actor, details := "ALTA INICIAL", fields := none }],
    orderNumber := none, containerId := none, vehiclePlate := none, assignedTo := none,
    deliveredTo := none, driverName := none, destination := none, observations := none }

/-- App.tsx's `handleAddSeal` (src/App.tsx:402): rejects any existing id,
otherwise prepends the new seal.  The boolean mirrors its JS return value. -/
def handleAddSealApp (seals : List Seal) (s : Seal) : Bool × List Seal :=
  if seals.any (fun x => x.id == s.id) then (false, seals)
  else (true, s :: seals)

/-- Outcome of part_001's new-seal registration `onClick`
(src/unnamed/part_001:740-750). -/
inductive RegisterResult
  | noInput
  | duplicate
  | ok (seals : List Seal)
deriving DecidableEq, Repr

/-- part_001's new-seal registration (src/unnamed/part_001:740-750): empty
input is ignored, an existing uppercase id raises the duplicate toast and
changes nothing, otherwise the new seal is saved (prepended). -/
def registerSeal001 (seals : List Seal) (idInput ty actor city now : String) : RegisterResult :=
  if idInput == "" then .noInput
  else if (seals.find? (fun s => s.id == upStr idInput)).isSome then .duplicate
  else .ok (mkNewSeal (upStr idInput) ty actor city now :: seals)

/-- part_000's new-seal registration (src/unnamed/part_000:605-617): empty
input is ignored; there is no duplicate check, the seal is always saved. -/
def registerSeal000 (seals : List Seal) (idInput ty actor city now : String) : List Seal :=
  if idInput == "" then seals
  else mkNewSeal (upStr idInput) ty actor city now :: seals

/-- part_002's `checkSealDuplicate` (src/unnamed/part_002:649): uniqueness is
scoped to the pair (id, type). -/
def checkSealDuplicate (seals : List Seal) (id ty : String) : Bool :=
  seals.any (fun s => s.id == id && s.type == ty)

/-- part_002's `handleAddSeal` (src/unnamed/part_002:650). -/
def handleAddSeal002 (currentUserCity : String) (seals : List Seal) (s : Seal) :
    Bool × List Seal :=
  if checkSealDuplicate seals s.id s.type then (false, seals)
  else (true, { s with city := currentUserCity } :: seals)

/-- The id parsing of part_001's `handleMassiveMovement`
(src/unnamed/part_001:230): split on commas, trim, uppercase, drop empties. -/
def parseIds (input : String) : List String :=
  ((splitComma input).map (fun t => upStr (trimStr t))).filter (fun t => t != "")

/-- The `forEach` partition of `handleMassiveMovement`
(src/unnamed/part_001:233-246): ids that match no seal, ids whose seal
belongs to another city, and the found seals of the user's city. -/
def partitionIds (seals : List Seal) (userCity : String) :
    List String → List String × List String × List Seal
  | [] => ([], [], [])
  | id :: rest =>
    let r := partitionIds seals userCity rest
    match seals.find? (fun s => s.id == id) with
    | none => (id :: r.1, r.2.1, r.2.2)
    | some found =>
      if found.city != userCity then (r.1, id :: r.2.1, r.2.2)
      else (r.1, r.2.1, found :: r.2.2)

/-- Outcome of part_001's `handleMassiveMovement` (src/unnamed/part_001:225-261):
either one of the three early-return toasts (no transition is attempted and
the seal collection is untouched), or the validated batch selected for the
move modal. -/
inductive MassiveResult
  | emptyInput (msg : String)
  | notExist (msg : String) (ids : List String)
  | wrongCity (msg : String) (ids : List String)
  | proceed (selected : List Seal)
deriving DecidableEq, Repr

/-- part_001's `handleMassiveMovement` (src/unnamed/part_001:225-261). -/
def handleMassiveMovement (seals : List Seal) (userCity : String)
    (movementInput : String) : MassiveResult :=
  if trimStr movementInput == "" then .emptyInput "Ingrese al menos un ID de sello"
  else
    let ids := parseIds movementInput
    let p := partitionIds seals userCity ids
    if p.1 != [] then
      .notExist ("Error: Los sellos [" ++ String.intercalate ", " p.1 ++
                 "] no existen en la base de datos.") p.1
    else if p.2.1 != [] then
      .wrongCity ("Error: Los sellos [" ++ String.intercalate ", " p.2.1 ++
                  "] pertenecen a otra sede.") p.2.1
    else .proceed p.2.2

/-- The inventory/movements table filter used by every variant
(e.g. src/unnamed/part_000:400,450, src/App.tsx:235): only seals of the
current user's city, for any role. -/
def inventoryFilter (seals : List Seal) (city : String) : List Seal :=
  seals.filter (fun s => s.city == city)

/-- part_001's trazabilidad filter (src/unnamed/part_001:582-585): id
substring match with no city restriction; nothing is shown for an empty
query. -/
def trazaFilter001 (seals : List Seal) (q : String) : List Seal :=
  if q.length > 0 then seals.filter (fun s => strContainsB (upStr s.id) q) else []

/-- part_000's inventory `handleSearch` lookup (src/unnamed/part_000:167):
case-insensitive exact id lookup over the whole collection, no city check;
the found seal feeds the Cambiar Estado movement flow
(src/unnamed/part_000:641). -/
def handleSearch000 (seals : List Seal) (searchId : String) : Option Seal :=
  seals.find? (fun s => upStr s.id == upStr searchId)

/-- part_002's traceability lookup (src/unnamed/part_002:524): exact
lowercase id match restricted to the user's city. -/
def foundSeal002 (seals : List Seal) (userCity searchId : String) : Option Seal :=
  if searchId == "" then none
  else seals.find? (fun s => lowStr s.id == lowStr searchId && s.city == userCity)

/-- The data-model invariant of spec section 3: the current status equals the
`toStatus` of the newest (first) history entry, and the history is
non-empty. -/
def statusMatchesHead (s : Seal) : Bool :=
  match s.history with
  | [] => false
  | h :: _ => s.status == h.toStatus

/-- Modelled from the spec: the transition table of spec section 4.1,
transcribed row by row from the spec's words, to be compared with the
source's `ALLOWED_TRANSITIONS`. -/
def specTable41 : SealStatus → List SealStatus
  | .entrada => [.asignado, .destruido]
  | .asignado => [.entregado, .entrada, .destruido]
  | .entregado => [.instalado, .noInstalado, .destruido]
  | .instalado => [.salidaFabrica, .destruido]
  | .noInstalado => [.destruido, .entrada]
  | .salidaFabrica => []
  | .destruido => []

/-! Concrete example data used by witnesses and counterexamples. -/

/-- An empty move-data object (every field the empty string), as produced by
`initiateMovement`'s reset (src/unnamed/part_002:655). -/
def mdEmpty : MoveData :=
  { requester := "", observations := "", vehiclePlate := "", trailerContainer := "",
    deliveredSub := "" }

/-- A freshly registered seal of the BOGOTA site. -/
def wSealA : Seal := mkNewSeal "BOG-001" "Botella" "ADMIN" "BOGOTA" "T0"

/-- C3.  The transition policy is exactly the table of spec section 4.1:
`ALLOWED_TRANSITIONS` agrees row by row with the spec-transcribed
`specTable41`; there are no self-transitions; SALIDA_FABRICA and DESTRUIDO
are exactly the sink states; the only edges back into ENTRADA_INVENTARIO
leave ASIGNADO and NO_INSTALADO, and both of those edges are present. -/
theorem c3_transition_table_matches_spec :
    (∀ s : SealStatus, ALLOWED_TRANSITIONS s = specTable41 s) ∧
    (∀ s : SealStatus, (ALLOWED_TRANSITIONS s).contains s = false) ∧
    (∀ s : SealStatus,
      (ALLOWED_TRANSITIONS s).isEmpty = (s == .salidaFabrica || s == .destruido)) ∧
    (∀ s : SealStatus,
      (ALLOWED_TRANSITIONS s).contains .entrada = (s == .asignado || s == .noInstalado)) ∧
    isTransitionAllowed .asignado .entrada = true ∧
    isTransitionAllowed .noInstalado .entrada = true := by
  decide

/-- C4.  Batch-consistency validation, realised by `getCommonNextStatuses`
and part_002's `commonStatus`: an empty batch fails (offers nothing and
reports no common status); a batch whose seals do not all share one status
reports MIXED and offers no transition; a non-empty batch whose seals all
share status S reports S and offers exactly the table row of S. -/
theorem c4_batch_consistency :
    (getCommonNextStatuses [] = [] ∧ commonStatus [] = .empty) ∧
    (∀ (s0 : Seal) (rest : List Seal),
        ((s0 :: rest).all (fun s => s.status == s0.status)) = false →
        commonStatus (s0 :: rest) = .mixed ∧ getCommonNextStatuses (s0 :: rest) = []) ∧
    (∀ (s0 : Seal) (rest : List Seal) (S : SealStatus),
        ((s0 :: rest).all (fun s => s.status == S)) = true →
        commonStatus (s0 :: rest) = .common S ∧
        getCommonNextStatuses (s0 :: rest) = ALLOWED_TRANSITIONS S) := by
  refine ⟨⟨rfl, rfl⟩, ?_, ?_⟩
  · intro s0 rest h
    constructor
    · simp only [commonStatus, h]
      rfl
    · simp only [getCommonNextStatuses, h]
      rfl
  · intro s0 rest S h
    have h0 : s0.status = S := by
      have := List.all_eq_true.mp h s0 (List.mem_cons_self s0 rest)
      simpa using this
    have hall : ((s0 :: rest).all (fun s => s.status == s0.status)) = true := by
      rw [h0]
      exact h
    constructor
    · simp only [commonStatus, h0]
      exact if_pos h
    · simp only [getCommonNextStatuses, h0]
      exact if_pos h

/-- Closed witness for `c4_batch_consistency`: a two-seal batch with mixed
statuses reports MIXED and offers nothing, and a uniform one-seal batch in
ENTRADA_INVENTARIO offers exactly that row of the table. -/
theorem c4_batch_consistency_witness :
    (commonStatus [wSealA, { wSealA with id := "BOG-002", status := .asignado }] = .mixed ∧
     getCommonNextStatuses [wSealA, { wSealA with id := "BOG-002", status := .asignado }] = []) ∧
    (commonStatus [wSealA] = .common .entrada ∧
     getCommonNextStatuses [wSealA] = ALLOWED_TRANSITIONS .entrada) :=
  ⟨c4_batch_consistency.2.1 wSealA [{ wSealA with id := "BOG-002", status := .asignado }]
      (by decide),
   c4_batch_consistency.2.2 wSealA [] .entrada (by decide)⟩

/-- Any member of the collection returned by a successful part_002
confirm-movement is either an untouched original seal or satisfies the
status/history-head invariant. -/
theorem confirm002_mem_cases (seals sel : List Seal) (ts : SealStatus) (d : MoveData)
    (actor now : String) (out : List Seal) (u : Seal)
    (h : handleConfirmMovement002 seals sel (some ts) d actor now = .ok out)
    (hu : u ∈ out) : u ∈ seals ∨ statusMatchesHead u = true := by
  simp only [handleConfirmMovement002] at h
  by_cases he : sel.isEmpty = true
  · rw [if_pos he] at h
    exact absurd h (by simp)
  · rw [if_neg he] at h
    cases hv : validate002 ts d with
    | error m =>
      rw [hv] at h
      exact absurd h (by simp)
    | ok det =>
      rw [hv] at h
      simp only [] at h
      injection h with h'
      subst h'
      obtain ⟨s, hs, rfl⟩ := List.mem_map.mp hu
      by_cases hc : ((sel.map (fun s => s.id)).contains s.id) = true
      · right
        rw [if_pos hc]
        simp [statusMatchesHead]
      · left
        rw [if_neg hc]
        exact hs

/-- Any member of the collection returned by App.tsx's confirm-movement is
either an untouched original seal or satisfies the status/history-head
invariant. -/
theorem confirmApp_mem_cases (seals sel : List Seal) (ots : Option SealStatus) (d : MoveData)
    (actor now : String) (u : Seal)
    (hu : u ∈ handleConfirmMovementApp seals sel ots d actor now) :
    u ∈ seals ∨ statusMatchesHead u = true := by
  cases ots with
  | none =>
    left
    simpa [handleConfirmMovementApp] using hu
  | some ts =>
    simp only [handleConfirmMovementApp] at hu
    obtain ⟨s, hs, rfl⟩ := List.mem_map.mp hu
    by_cases hc : ((sel.map (fun s => s.id)).contains s.id) = true
    · right
      rw [if_pos hc]
      simp [statusMatchesHead]
    · left
      rw [if_neg hc]
      exact hs

/-- C2.  Invariant: the seal's `status` equals `history[0].toStatus` and the
history is non-empty, after creation (`mkNewSeal`), after every single-seal
update of part_000/part_001's `handleConfirmMove`, and after the batch
handlers of part_002 and App.tsx (assuming the collection satisfied the
invariant beforehand, untouched seals keep it and updated seals re-establish
it). -/
theorem c2_status_equals_newest_history :
    (∀ id ty actor city now, statusMatchesHead (mkNewSeal id ty actor city now) = true) ∧
    (∀ f st actor now det s, statusMatchesHead (applyMoveToSeal f st actor now det s) = true) ∧
    (∀ f actor now sel out, handleConfirmMove f actor now sel = some out →
        ∀ u ∈ out, statusMatchesHead u = true) ∧
    (∀ seals sel ts d actor now out,
        handleConfirmMovement002 seals sel (some ts) d actor now = .ok out →
        (∀ s ∈ seals, statusMatchesHead s = true) →
        ∀ u ∈ out, statusMatchesHead u = true) ∧
    (∀ seals sel ots d actor now,
        (∀ s ∈ seals, statusMatchesHead s = true) →
        ∀ u ∈ handleConfirmMovementApp seals sel ots d actor now,
          statusMatchesHead u = true) := by
  have base : ∀ f st actor now det s,
      statusMatchesHead (applyMoveToSeal f st actor now det s) = true := by
    intro f st actor now det s
    simp [statusMatchesHead, applyMoveToSeal]
  refine ⟨?_, base, ?_, ?_, ?_⟩
  · intro id ty actor city now
    rfl
  · intro f actor now sel out h u hu
    cases hst : f.status with
    | none =>
      simp only [handleConfirmMove, hst] at h
      exact Option.noConfusion h
    | some st =>
      simp only [handleConfirmMove, hst] at h
      injection h with h'
      subst h'
      obtain ⟨s, hs, rfl⟩ := List.mem_map.mp hu
      exact base _ _ _ _ _ _
  · intro seals sel ts d actor now out h hinv u hu
    rcases confirm002_mem_cases seals sel ts d actor now out u h hu with hmem | hok
    · exact hinv u hmem
    · exact hok
  · intro seals sel ots d actor now hinv u hu
    rcases confirmApp_mem_cases seals sel ots d actor now u hu with hmem | hok
    · exact hinv u hmem
    · exact hok

/-- The collection produced by App.tsx's confirm-movement at a concrete
input, used by the C2 witness. -/
def c2out : List Seal :=
  handleConfirmMovementApp [wSealA] [wSealA] (some .asignado) mdEmpty "OP" "T1"

/-- Closed witness for `c2_status_equals_newest_history` at a concrete
one-seal collection moved to ASIGNADO. -/
theorem c2_witness : statusMatchesHead (c2out.getD 0 wSealA) = true :=
  c2_status_equals_newest_history.2.2.2.2 [wSealA] [wSealA] (some .asignado) mdEmpty "OP" "T1"
    (by decide) (c2out.getD 0 wSealA) (by decide)

/-- A seal sitting in the terminal status DESTRUIDO. -/
def cSealDest : Seal :=
  { mkNewSeal "BOG-009" "Cable" "ADMIN" "BOGOTA" "T0" with
    status := .destruido
    history := [{ date := "T0", fromStatus := none, toStatus := .destruido,
                  user := "ADMIN", details := "ALTA INICIAL", fields := none }] }

/-- C1 counterexample.  DESTRUIDO → ASIGNADO is not in the transition table,
yet App.tsx's confirm-movement handler applied to a batch holding a DESTRUIDO
seal does not fail: it changes the seal's status to ASIGNADO and prepends a
history entry, so the seal is modified rather than left untouched. -/
theorem c1_counterexample :
    isTransitionAllowed .destruido .asignado = false ∧
    (handleConfirmMovementApp [cSealDest] [cSealDest] (some .asignado) mdEmpty "OP" "T1").map
        (fun s => s.status) = [.asignado] ∧
    (handleConfirmMovementApp [cSealDest] [cSealDest] (some .asignado) mdEmpty "OP" "T1").map
        (fun s => s.history.length) = [2] ∧
    handleConfirmMovementApp [cSealDest] [cSealDest] (some .asignado) mdEmpty "OP" "T1" ≠
      [cSealDest] := by
  decide

/-- C1 amended.  The confirm-movement handlers perform no transition-legality
check themselves: given any target they mutate every selected seal to it
(last conjunct), and with no target selected they change nothing.  Illegal
pairs are prevented only upstream, at the offer step: any status offered by
`getCommonNextStatuses` is legal for the batch's (uniform) current status. -/
theorem c1_amended_legality_only_at_offer :
    (∀ (batch : List Seal) (t : SealStatus) (s0 : Seal),
        t ∈ getCommonNextStatuses batch → batch.head? = some s0 →
        (batch.all (fun s => s.status == s0.status)) = true ∧
        isTransitionAllowed s0.status t = true) ∧
    (∀ seals sel d actor now, handleConfirmMovementApp seals sel none d actor now = seals) ∧
    (∀ f actor now sel, f.status = none → handleConfirmMove f actor now sel = none) ∧
    (∀ seals sel ts d actor now,
        (handleConfirmMovementApp seals sel (some ts) d actor now).map (fun s => s.status) =
          seals.map (fun s =>
            if (sel.map (fun x => x.id)).contains s.id then ts else s.status)) := by
  refine ⟨?_, ?_, ?_, ?_⟩
  · intro batch t s0 ht h0
    cases batch with
    | nil => exact absurd h0 (by simp)
    | cons b rest =>
      have hb : b = s0 := by
        simpa using h0
      subst hb
      simp only [getCommonNextStatuses] at ht
      by_cases hall : ((b :: rest).all (fun s => s.status == b.status)) = true
      · rw [if_pos hall] at ht
        refine ⟨hall, ?_⟩
        simpa [isTransitionAllowed] using ht
      · rw [if_neg hall] at ht
        exact absurd ht (by simp)
  · intro seals sel d actor now
    rfl
  · intro f actor now sel h
    simp only [handleConfirmMove, h]
  · intro seals sel ts d actor now
    simp only [handleConfirmMovementApp, List.map_map]
    apply List.map_congr_left
    intro s hs
    simp only [Function.comp]
    by_cases hc : ((sel.map (fun s => s.id)).contains s.id) = true
    · rw [if_pos hc, if_pos hc]
    · rw [if_neg hc, if_neg hc]

/-- Closed witness for `c1_amended_legality_only_at_offer`: for the singleton
batch of a fresh ENTRADA_INVENTARIO seal, the offered status ASIGNADO comes
with a uniform batch and a legal transition. -/
theorem c1_amended_witness :
    ([wSealA].all (fun s => s.status == wSealA.status)) = true ∧
    isTransitionAllowed wSealA.status .asignado = true :=
  c1_amended_legality_only_at_offer.1 [wSealA] .asignado wSealA (by decide) (by decide)

/-- A seal sitting in status INSTALADO. -/
def cSealInst : Seal :=
  { mkNewSeal "BOG-010" "Botella" "ADMIN" "BOGOTA" "T0" with status := .instalado }

/-- C5 counterexample.  The claim requires `destination` for a transition to
SALIDA_FABRICA; part_002's confirm-movement handler (the only variant with
field validation at all) succeeds on INSTALADO → SALIDA_FABRICA with every
supplied field empty, and mutates the seal instead of failing. -/
theorem c5_counterexample :
    (handleConfirmMovement002 [cSealInst] [cSealInst] (some .salidaFabrica) mdEmpty
        "OP" "T1").isOk = true ∧
    handleConfirmMovement002 [cSealInst] [cSealInst] (some .salidaFabrica) mdEmpty
        "OP" "T1" ≠ .ok [cSealInst] := by
  decide

/-- C5 amended.  The required-field schema actually enforced (by part_002's
handler, the only validating variant) is: ASIGNADO and ENTREGADO require the
requester (receptor) field; INSTALADO requires both vehiclePlate and
trailerContainer; NO_INSTALADO requires deliveredSub; DESTRUIDO requires
non-empty observations; SALIDA_FABRICA and ENTRADA_INVENTARIO require no
extra field; on a missing field the handler aborts with the alert naming the
field and no seal is mutated. -/
theorem c5_amended_required_fields :
    (∀ d : MoveData, d.requester = "" →
        validate002 .asignado d = .error "El Usuario Receptor es obligatorio." ∧
        validate002 .entregado d = .error "El Usuario Receptor es obligatorio.") ∧
    (∀ d : MoveData, d.vehiclePlate = "" ∨ d.trailerContainer = "" →
        validate002 .instalado d = .error "Placa y Contenedor obligatorios.") ∧
    (∀ d : MoveData, d.deliveredSub = "" →
        validate002 .noInstalado d = .error "El campo Entregado sub es obligatorio.") ∧
    (∀ d : MoveData, d.observations = "" →
        validate002 .destruido d = .error "El Motivo es obligatorio.") ∧
    (∀ d : MoveData,
        (validate002 .salidaFabrica d).isOk = true ∧ (validate002 .entrada d).isOk = true) ∧
    (∀ (seals sel : List Seal) (ts : SealStatus) (d : MoveData) (actor now m : String),
        sel ≠ [] → validate002 ts d = .error m →
        handleConfirmMovement002 seals sel (some ts) d actor now = .fieldError m) := by
  refine ⟨?_, ?_, ?_, ?_, ?_, ?_⟩
  · intro d h
    constructor <;> simp [validate002, h]
  · intro d h
    rcases h with h | h <;> simp [validate002, h]
  · intro d h
    simp [validate002, h]
  · intro d h
    simp [validate002, h]
  · intro d
    exact ⟨rfl, rfl⟩
  · intro seals sel ts d actor now m hne hv
    have he : ¬ sel.isEmpty = true := fun hc => hne (by simpa using hc)
    simp only [handleConfirmMovement002]
    rw [if_neg he, hv]

/-- Closed witness for `c5_amended_required_fields`: the empty move-data
fails the DESTRUIDO validation and the handler aborts with that alert. -/
theorem c5_witness :
    validate002 .destruido mdEmpty = .error "El Motivo es obligatorio." ∧
    handleConfirmMovement002 [cSealInst] [cSealInst] (some .destruido) mdEmpty "OP" "T1" =
      .fieldError "El Motivo es obligatorio." :=
  ⟨c5_amended_required_fields.2.2.2.1 mdEmpty rfl,
   c5_amended_required_fields.2.2.2.2.2 [cSealInst] [cSealInst] .destruido mdEmpty
     "OP" "T1" "El Motivo es obligatorio." (by decide) rfl⟩

/-- Iterating part_000/part_001's per-seal update over a list of
(form, target) moves, to state the history-length property of N successive
transitions. -/
def runMoves (actor now : String) (moves : List (MoveForm × SealStatus)) (s : Seal) : Seal :=
  moves.foldl (fun acc p => applyMoveToSeal p.1 p.2 actor now (moveDetails p.1 p.2) acc) s

/-- A seal created by the user CREATOR. -/
def cSealCreator : Seal := mkNewSeal "BOG-011" "Botella" "CREATOR" "BOGOTA" "T0"

/-- The move form of an assignment to JUAN (observations key present but
empty, as after the form reset). -/
def cFormAsign : MoveForm :=
  { status := some .asignado, observations := some "", assignedTo := some "JUAN",
    deliveredTo := none, vehiclePlate := none, containerId := none, driverName := none,
    destination := none, orderNumber := none }

/-- C6 counterexample.  A successful ENTRADA_INVENTARIO → ASIGNADO move by
the actor MOVER through part_000/part_001's `handleConfirmMove` leaves the
seal's `entryUser` at its old value CREATOR instead of setting it to the
acting user, so the claimed update `entryUser = actor` fails (that handler
also produces a details string with no batch marker). -/
theorem c6_counterexample :
    handleConfirmMove cFormAsign "MOVER" "T1" [cSealCreator] =
      some [applyMoveToSeal cFormAsign .asignado "MOVER" "T1"
        (moveDetails cFormAsign .asignado) cSealCreator] ∧
    (applyMoveToSeal cFormAsign .asignado "MOVER" "T1"
        (moveDetails cFormAsign .asignado) cSealCreator).status = .asignado ∧
    (applyMoveToSeal cFormAsign .asignado "MOVER" "T1"
        (moveDetails cFormAsign .asignado) cSealCreator).entryUser = "CREATOR" ∧
    ("CREATOR" : String) ≠ "MOVER" ∧
    moveDetails cFormAsign .asignado = "Movimiento a ASIGNADO. assignedTo: JUAN" := by
  decide

/-- C6 amended.  For part_000/part_001's `handleConfirmMove`, every selected
seal is updated to `status = targetStatus` and `lastMovement = now`, with a
new history entry prepended in front whose `fromStatus` is that seal's own
previous status, `toStatus` the target, `user` the actor and `details` the
generated `"Movimiento a <target>. key: value, ..."` summary (shared by the
whole batch, with no batch marker); `entryUser` is left unchanged; and after
N successive moves a seal's history has N more entries than before (so a
seal created by `mkNewSeal`, whose history has one entry, has N+1,
newest first). -/
theorem c6_amended_update_shape :
    (∀ f st actor now det s,
        (applyMoveToSeal f st actor now det s).status = st ∧
        (applyMoveToSeal f st actor now det s).lastMovement = now ∧
        (applyMoveToSeal f st actor now det s).entryUser = s.entryUser ∧
        (applyMoveToSeal f st actor now det s).history =
          { date := now, fromStatus := some s.status, toStatus := st, user := actor,
            details := det, fields := some f } :: s.history) ∧
    (∀ f st actor now sel, f.status = some st →
        handleConfirmMove f actor now sel =
          some (sel.map (applyMoveToSeal f st actor now (moveDetails f st)))) ∧
    (∀ actor now moves s0,
        (runMoves actor now moves s0).history.length = s0.history.length + moves.length) ∧
    (∀ id ty actor city now, (mkNewSeal id ty actor city now).history.length = 1) := by
  refine ⟨?_, ?_, ?_, ?_⟩
  · intro f st actor now det s
    exact ⟨rfl, rfl, rfl, rfl⟩
  · intro f st actor now sel h
    simp only [handleConfirmMove, h]
  · intro actor now moves
    induction moves with
    | nil =>
      intro s0
      simp [runMoves]
    | cons p rest ih =>
      intro s0
      have hstep : runMoves actor now (p :: rest) s0 =
          runMoves actor now rest
            (applyMoveToSeal p.1 p.2 actor now (moveDetails p.1 p.2) s0) := rfl
      rw [hstep, ih]
      simp only [applyMoveToSeal, List.length_cons]
      omega
  · intro id ty actor city now
    rfl

/-- Closed witness for `c6_amended_update_shape`: a concrete two-seal batch
is mapped through the per-seal update, and one move on a fresh seal leaves a
two-entry history. -/
theorem c6_witness :
    handleConfirmMove cFormAsign "MOVER" "T1"
        [cSealCreator, { cSealCreator with id := "BOG-012" }] =
      some ([cSealCreator, { cSealCreator with id := "BOG-012" }].map
        (applyMoveToSeal cFormAsign .asignado "MOVER" "T1"
          (moveDetails cFormAsign .asignado))) ∧
    (runMoves "MOVER" "T1" [(cFormAsign, .asignado)] cSealCreator).history.length =
      cSealCreator.history.length + 1 :=
  ⟨c6_amended_update_shape.2.1 cFormAsign .asignado "MOVER" "T1"
     [cSealCreator, { cSealCreator with id := "BOG-012" }] rfl,
   c6_amended_update_shape.2.2.1 "MOVER" "T1" [(cFormAsign, .asignado)] cSealCreator⟩

/-- A registered seal with id X-1 of type Botella. -/
def cs1 : Seal := mkNewSeal "X-1" "Botella" "ADMIN" "BOGOTA" "T0"

/-- A second seal with the same id X-1 but type Cable. -/
def cs2 : Seal := mkNewSeal "X-1" "Cable" "ADMIN" "BOGOTA" "T0"

/-- C7 counterexample.  With the id X-1 already present, part_002's
`handleAddSeal` still accepts a second seal with that id (different type,
uniqueness there is scoped to the (id, type) pair) and the collection grows;
and part_000's registration performs no duplicate check at all, so
re-registering x-1 (uppercased to the existing X-1) also grows the
collection.  Both contradict the claim that any second `createSeal` with an
existing id fails and leaves the collection unchanged. -/
theorem c7_counterexample :
    (handleAddSeal002 "BOGOTA" [cs1] cs2).1 = true ∧
    (handleAddSeal002 "BOGOTA" [cs1] cs2).2.length = 2 ∧
    (registerSeal000 [cs1] "x-1" "Cable" "ADMIN" "BOGOTA" "T1").length = 2 := by
  decide

/-- C7 amended.  Duplicate handling varies by variant: App.tsx's
`handleAddSeal` and part_001's registration reject any already-present id
(after uppercase normalization) and leave the collection unchanged, and only
a fresh id prepends a new seal; part_002 scopes uniqueness to the (id, type)
pair; part_000's registration has no duplicate check (see the
counterexample). -/
theorem c7_amended_duplicate_check_varies :
    (∀ (seals : List Seal) (s : Seal), (seals.any (fun x => x.id == s.id)) = true →
        handleAddSealApp seals s = (false, seals)) ∧
    (∀ (seals : List Seal) (s : Seal), (seals.any (fun x => x.id == s.id)) = false →
        handleAddSealApp seals s = (true, s :: seals)) ∧
    (∀ (seals : List Seal) (idInput ty actor city now : String), idInput ≠ "" →
        ((seals.find? (fun s => s.id == upStr idInput)).isSome) = true →
        registerSeal001 seals idInput ty actor city now = .duplicate) ∧
    (∀ (seals : List Seal) (idInput ty actor city now : String), idInput ≠ "" →
        ((seals.find? (fun s => s.id == upStr idInput)).isSome) = false →
        registerSeal001 seals idInput ty actor city now =
          .ok (mkNewSeal (upStr idInput) ty actor city now :: seals)) ∧
    (∀ (seals : List Seal) (city : String) (s : Seal),
        checkSealDuplicate seals s.id s.type = true →
        handleAddSeal002 city seals s = (false, seals)) ∧
    (∀ (seals : List Seal) (city : String) (s : Seal),
        checkSealDuplicate seals s.id s.type = false →
        handleAddSeal002 city seals s = (true, { s with city := city } :: seals)) := by
  refine ⟨?_, ?_, ?_, ?_, ?_, ?_⟩
  · intro seals s h
    simp [handleAddSealApp, h]
  · intro seals s h
    simp [handleAddSealApp, h]
  · intro seals idInput ty actor city now h1 h2
    simp [registerSeal001, h1, h2]
  · intro seals idInput ty actor city now h1 h2
    simp [registerSeal001, h1, h2]
  · intro seals city s h
    simp [handleAddSeal002, h]
  · intro seals city s h
    simp [handleAddSeal002, h]

/-- Closed witness for `c7_amended_duplicate_check_varies` at concrete seals:
App.tsx rejects the duplicate id, part_001 rejects the lowercased duplicate,
part_002 accepts the same id under a different type. -/
theorem c7_witness :
    handleAddSealApp [cs1] cs1 = (false, [cs1]) ∧
    registerSeal001 [cs1] "x-1" "Botella" "ADMIN" "BOGOTA" "T1" = .duplicate ∧
    handleAddSeal002 "BOGOTA" [cs1] cs2 = (true, { cs2 with city := "BOGOTA" } :: [cs1]) :=
  ⟨c7_amended_duplicate_check_varies.1 [cs1] cs1 (by decide),
   c7_amended_duplicate_check_varies.2.2.1 [cs1] "x-1" "Botella" "ADMIN" "BOGOTA" "T1"
     (by decide) (by decide),
   c7_amended_duplicate_check_varies.2.2.2.2.2 [cs1] "BOGOTA" cs2 (by decide)⟩

/-- The recursive `forEach` partition of `handleMassiveMovement` equals
three independent passes: the ids with no matching seal, the ids matched in
another city, and the matched own-city seals. -/
theorem partitionIds_eq (seals : List Seal) (city : String) (ids : List String) :
    partitionIds seals city ids =
      (ids.filter (fun id => (seals.find? (fun s => s.id == id)).isNone),
       ids.filter (fun id =>
         match seals.find? (fun s => s.id == id) with
         | some f => f.city != city
         | none => false),
       ids.filterMap (fun id =>
         match seals.find? (fun s => s.id == id) with
         | some f => if f.city != city then none else some f
         | none => none)) := by
  induction ids with
  | nil => rfl
  | cons id rest ih =>
    simp only [partitionIds, ih]
    cases hf : seals.find? (fun s => s.id == id) with
    | none =>
      simp [List.filter_cons, List.filterMap_cons, hf]
    | some f =>
      by_cases hc : (f.city != city) = true
      · have hcp : f.city ≠ city := by simpa using hc
        simp [List.filter_cons, List.filterMap_cons, hf, hc, hcp]
      · have hcp : f.city = city := by
          have h2 := hc
          simp only [bne_iff_ne, ne_eq] at h2
          exact not_not.mp h2
        simp [List.filter_cons, List.filterMap_cons, hf, hc, hcp]

/-- Every seal in the valid component of the partition is a member of the
collection and belongs to the requested city. -/
theorem partitionIds_valid_mem (seals : List Seal) (city : String) (ids : List String)
    (f : Seal) (hf : f ∈ (partitionIds seals city ids).2.2) :
    f ∈ seals ∧ f.city = city := by
  rw [partitionIds_eq] at hf
  obtain ⟨id, hid, hmap⟩ := List.mem_filterMap.mp hf
  cases hfind : seals.find? (fun s => s.id == id) with
  | none =>
    rw [hfind] at hmap
    exact absurd hmap (by simp)
  | some g =>
    rw [hfind] at hmap
    by_cases hc : (g.city != city) = true
    · simp [hc] at hmap
    · have hcp : g.city = city := by
        have h2 := hc
        simp only [bne_iff_ne, ne_eq] at h2
        exact not_not.mp h2
      simp [hcp] at hmap
      subst hmap
      exact ⟨List.mem_of_find?_eq_some hfind, hcp⟩

/-- C8.  resolveBatch, realised by part_001's `handleMassiveMovement`: the
comma-separated, trimmed, uppercased ids are partitioned into matched
own-city seals, ids that exist nowhere, and ids of another site; every seal
accepted as valid exists in the collection and belongs to the actor's city;
when some ids do not exist the operation stops with a message naming every
such id (not just the first); when all exist but some are of another site it
stops naming every such id; only otherwise does it proceed to the move
dialog with the found seals, so no transition is attempted on a failed
validation. -/
theorem c8_resolve_batch_partition :
    (∀ (seals : List Seal) (city : String) (ids : List String),
        partitionIds seals city ids =
          (ids.filter (fun id => (seals.find? (fun s => s.id == id)).isNone),
           ids.filter (fun id =>
             match seals.find? (fun s => s.id == id) with
             | some f => f.city != city
             | none => false),
           ids.filterMap (fun id =>
             match seals.find? (fun s => s.id == id) with
             | some f => if f.city != city then none else some f
             | none => none))) ∧
    (∀ (seals : List Seal) (city : String) (ids : List String) (f : Seal),
        f ∈ (partitionIds seals city ids).2.2 → f ∈ seals ∧ f.city = city) ∧
    (∀ (seals : List Seal) (city input : String), trimStr input ≠ "" →
        (partitionIds seals city (parseIds input)).1 ≠ [] →
        handleMassiveMovement seals city input =
          .notExist ("Error: Los sellos [" ++
              String.intercalate ", " (partitionIds seals city (parseIds input)).1 ++
              "] no existen en la base de datos.")
            (partitionIds seals city (parseIds input)).1) ∧
    (∀ (seals : List Seal) (city input : String), trimStr input ≠ "" →
        (partitionIds seals city (parseIds input)).1 = [] →
        (partitionIds seals city (parseIds input)).2.1 ≠ [] →
        handleMassiveMovement seals city input =
          .wrongCity ("Error: Los sellos [" ++
              String.intercalate ", " (partitionIds seals city (parseIds input)).2.1 ++
              "] pertenecen a otra sede.")
            (partitionIds seals city (parseIds input)).2.1) ∧
    (∀ (seals : List Seal) (city input : String), trimStr input ≠ "" →
        (partitionIds seals city (parseIds input)).1 = [] →
        (partitionIds seals city (parseIds input)).2.1 = [] →
        handleMassiveMovement seals city input =
          .proceed (partitionIds seals city (parseIds input)).2.2) := by
  refine ⟨partitionIds_eq, partitionIds_valid_mem, ?_, ?_, ?_⟩
  · intro seals city input hin h1
    have hcond : ¬ (trimStr input == "") = true := by simpa using hin
    have hb1 : ((partitionIds seals city (parseIds input)).1 != []) = true := by
      simpa using h1
    simp only [handleMassiveMovement]
    rw [if_neg hcond, if_pos hb1]
  · intro seals city input hin h1 h2
    have hcond : ¬ (trimStr input == "") = true := by simpa using hin
    have hb1 : ¬ ((partitionIds seals city (parseIds input)).1 != []) = true := by
      simp [h1]
    have hb2 : ((partitionIds seals city (parseIds input)).2.1 != []) = true := by
      simpa using h2
    simp only [handleMassiveMovement]
    rw [if_neg hcond, if_neg hb1, if_pos hb2]
  · intro seals city input hin h1 h2
    have hcond : ¬ (trimStr input == "") = true := by simpa using hin
    have hb1 : ¬ ((partitionIds seals city (parseIds input)).1 != []) = true := by
      simp [h1]
    have hb2 : ¬ ((partitionIds seals city (parseIds input)).2.1 != []) = true := by
      simp [h2]
    simp only [handleMassiveMovement]
    rw [if_neg hcond, if_neg hb1, if_neg hb2]

/-- A two-site collection for the C8 witness. -/
def c8seals : List Seal :=
  [mkNewSeal "BOG-101" "Botella" "ADMIN" "BOGOTA" "T0",
   mkNewSeal "MED-201" "Botella" "ADMIN" "MEDELLIN" "T0"]

/-- Closed witness for `c8_resolve_batch_partition`: the request
" bog-101, x-9 " is parsed case-insensitively, BOG-101 resolves, X-9 does
not exist, and the operation stops with the message naming X-9. -/
theorem c8_witness :
    handleMassiveMovement c8seals "BOGOTA" " bog-101, x-9 " =
      .notExist "Error: Los sellos [X-9] no existen en la base de datos." ["X-9"] :=
  c8_resolve_batch_partition.2.2.1 c8seals "BOGOTA" " bog-101, x-9 "
    (by decide) (by decide)

/-- A seal in ASIGNADO whose assignedTo field was written by an earlier
transition. -/
def c9Seal : Seal :=
  { mkNewSeal "BOG-012" "Botella" "ADMIN" "BOGOTA" "T0" with
    status := .asignado
    assignedTo := some "JUAN" }

/-- The move form as left by `handleMassiveMovement`'s reset
(src/unnamed/part_001:259: observations, assignedTo and orderNumber reset to
the empty string) with the target ENTREGADO then selected. -/
def c9Form : MoveForm :=
  { status := some .entregado, observations := some "", assignedTo := some "",
    deliveredTo := none, vehiclePlate := none, containerId := none, driverName := none,
    destination := none, orderNumber := some "" }

/-- C9 counterexample.  A legal ASIGNADO → ENTREGADO transition that does
not re-enter assignedTo (the form reset left the key present with the empty
string) clears the previously written value JUAN: the operational field does
not persist, contradicting the cumulative-fields claim. -/
theorem c9_counterexample :
    c9Seal.assignedTo = some "JUAN" ∧
    isTransitionAllowed .asignado .entregado = true ∧
    (applyMoveToSeal c9Form .entregado "OP" "T1" (moveDetails c9Form .entregado)
        c9Seal).assignedTo = some "" := by
  decide

/-- C9 amended.  The spread `{...s, ...moveForm}` overwrites exactly the
fields whose key is present in the move form — including keys reset to the
empty string, which therefore clear earlier values — while fields absent
from the form keep the seal's stored value. -/
theorem c9_amended_field_overwrite :
    ∀ (f : MoveForm) (st : SealStatus) (actor now det : String) (s : Seal),
      (f.observations = none →
        (applyMoveToSeal f st actor now det s).observations = s.observations) ∧
      (f.observations ≠ none →
        (applyMoveToSeal f st actor now det s).observations = f.observations) ∧
      (f.assignedTo = none →
        (applyMoveToSeal f st actor now det s).assignedTo = s.assignedTo) ∧
      (f.assignedTo ≠ none →
        (applyMoveToSeal f st actor now det s).assignedTo = f.assignedTo) ∧
      (f.deliveredTo = none →
        (applyMoveToSeal f st actor now det s).deliveredTo = s.deliveredTo) ∧
      (f.deliveredTo ≠ none →
        (applyMoveToSeal f st actor now det s).deliveredTo = f.deliveredTo) ∧
      (f.vehiclePlate = none →
        (applyMoveToSeal f st actor now det s).vehiclePlate = s.vehiclePlate) ∧
      (f.vehiclePlate ≠ none →
        (applyMoveToSeal f st actor now det s).vehiclePlate = f.vehiclePlate) ∧
      (f.containerId = none →
        (applyMoveToSeal f st actor now det s).containerId = s.containerId) ∧
      (f.containerId ≠ none →
        (applyMoveToSeal f st actor now det s).containerId = f.containerId) ∧
      (f.driverName = none →
        (applyMoveToSeal f st actor now det s).driverName = s.driverName) ∧
      (f.driverName ≠ none →
        (applyMoveToSeal f st actor now det s).driverName = f.driverName) ∧
      (f.destination = none →
        (applyMoveToSeal f st actor now det s).destination = s.destination) ∧
      (f.destination ≠ none →
        (applyMoveToSeal f st actor now det s).destination = f.destination) ∧
      (f.orderNumber = none →
        (applyMoveToSeal f st actor now det s).orderNumber = s.orderNumber) ∧
      (f.orderNumber ≠ none →
        (applyMoveToSeal f st actor now det s).orderNumber = f.orderNumber) := by
  intro f st actor now det s
  refine ⟨?_, ?_, ?_, ?_, ?_, ?_, ?_, ?_, ?_, ?_, ?_, ?_, ?_, ?_, ?_, ?_⟩ <;>
    first
      | (intro h
         simp [applyMoveToSeal, mergeField, h]
         done)
      | (intro h
         obtain ⟨v, hv⟩ := Option.ne_none_iff_exists'.mp h
         simp [applyMoveToSeal, mergeField, hv])

/-- Closed witness for `c9_amended_field_overwrite`: at the concrete reset
form, the absent vehiclePlate key persists and the present assignedTo key
overwrites. -/
theorem c9_witness :
    (applyMoveToSeal c9Form .entregado "OP" "T1" (moveDetails c9Form .entregado)
        c9Seal).vehiclePlate = c9Seal.vehiclePlate ∧
    (applyMoveToSeal c9Form .entregado "OP" "T1" (moveDetails c9Form .entregado)
        c9Seal).assignedTo = c9Form.assignedTo :=
  ⟨(c9_amended_field_overwrite c9Form .entregado "OP" "T1"
      (moveDetails c9Form .entregado) c9Seal).2.2.2.2.2.2.1 rfl,
   (c9_amended_field_overwrite c9Form .entregado "OP" "T1"
      (moveDetails c9Form .entregado) c9Seal).2.2.2.1 (by decide)⟩

/-- A seal belonging to the MEDELLIN site. -/
def c10Foreign : Seal := mkNewSeal "MED-001" "Botella" "ADMIN" "MEDELLIN" "T0"

/-- C10 counterexample.  For a user scoped to BOGOTA, two read paths return
a MEDELLIN seal: part_001's traceability filter (substring id match, no city
restriction) and part_000's inventory search (whole-collection lookup whose
result feeds the Cambiar Estado movement flow).  Site scoping is therefore
not enforced on every read/write path. -/
theorem c10_counterexample :
    c10Foreign.city ≠ "BOGOTA" ∧
    trazaFilter001 [c10Foreign] "MED" = [c10Foreign] ∧
    handleSearch000 [c10Foreign] "med-001" = some c10Foreign := by
  decide

/-- C10 amended.  Site scoping is enforced only view by view: the
inventory/movements tables show exclusively the current city's seals (for
any role) and part_002's traceability lookup requires the seal's city to
match; but part_001's traceability filter returns any id-substring match
regardless of city, and part_000's inventory search resolves an id anywhere
in the collection. -/
theorem c10_amended_scoping_per_view :
    (∀ (seals : List Seal) (city : String) (s : Seal),
        s ∈ inventoryFilter seals city → s.city = city) ∧
    (∀ (seals : List Seal) (city q : String) (s : Seal),
        foundSeal002 seals city q = some s → s ∈ seals ∧ s.city = city) ∧
    (∀ (seals : List Seal) (q : String) (s : Seal), q.length > 0 → s ∈ seals →
        strContainsB (upStr s.id) q = true → s ∈ trazaFilter001 seals q) ∧
    (∀ (seals : List Seal) (sid : String) (s : Seal),
        handleSearch000 seals sid = some s → s ∈ seals) := by
  refine ⟨?_, ?_, ?_, ?_⟩
  · intro seals city s h
    have hm := List.mem_filter.mp h
    simpa using hm.2
  · intro seals city q s h
    by_cases hq : (q == "") = true
    · rw [foundSeal002, if_pos hq] at h
      exact absurd h (by simp)
    · rw [foundSeal002, if_neg hq] at h
      have hmem := List.mem_of_find?_eq_some h
      have hpred := List.find?_some h
      rw [Bool.and_eq_true] at hpred
      exact ⟨hmem, by simpa using hpred.2⟩
  · intro seals q s hq hs hmatch
    rw [trazaFilter001, if_pos hq]
    exact List.mem_filter.mpr ⟨hs, hmatch⟩
  · intro seals sid s h
    exact List.mem_of_find?_eq_some h

/-- Closed witness for `c10_amended_scoping_per_view`: the inventory filter
keeps only BOGOTA seals, and the foreign MEDELLIN seal is returned by the
traceability filter for the query MED. -/
theorem c10_witness :
    ((inventoryFilter [wSealA, c10Foreign] "BOGOTA").getD 0 wSealA).city = "BOGOTA" ∧
    c10Foreign ∈ trazaFilter001 [c10Foreign] "MED" :=
  ⟨c10_amended_scoping_per_view.1 [wSealA, c10Foreign] "BOGOTA"
     ((inventoryFilter [wSealA, c10Foreign] "BOGOTA").getD 0 wSealA) (by decide),
   c10_amended_scoping_per_view.2.2.1 [c10Foreign] "MED" c10Foreign
     (by decide) (by decide) (by decide)⟩
